import Mathlib

/-!
Shallow embedding of the live-edit repository's onboarding flow
(`src/ts/editor/ui/parts/onboarding/github.ts`), render coalescing
(`src/editor/editor.ts`), deep cleaning (`src/utility/deepClean.ts`),
URL resolution (`ServerApi.resolveUrl`) and aspect-ratio reduction
(`fractReduce`), together with proofs about the claims of the
specification.
-/

namespace LiveEdit

/-! ## JavaScript-style helpers

JS truthiness for an optional string: `undefined` and the empty string
are falsy, every other string is truthy. -/

def truthyStr : Option String → Bool
  | none => false
  | some s => !(s == "")

/-- JS `String.prototype.includes`: substring containment. -/
def jsIncludes (s sub : String) : Bool :=
  decide (sub.data <:+: s.data)

/-! ## Identity and step derivation

`GitHubOnboardingPart.template` (github.ts lines 192-206) dispatches on
`api.checkAuth()`, `api.organization` and `api.project`; no list data is
consulted. -/

structure Identity where
  authenticated : Bool
  organization : Option String
  project : Option String
  deriving Repr, DecidableEq

inductive Step where
  | Login
  | ChooseOrg
  | ChooseRepo
  | ChooseWorkspace
  deriving Repr, DecidableEq

/-- The dispatch of `template()`:
`if (!this.api.checkAuth()) … else if (!this.api.organization) …
else if (!this.api.project) … else …`. -/
def computeStep (id : Identity) : Step :=
  if !id.authenticated then .Login
  else if !truthyStr id.organization then .ChooseOrg
  else if !truthyStr id.project then .ChooseRepo
  else .ChooseWorkspace

/-! ## Aspect-ratio reduction (unnamed/part_001 lines 243-260)

`greatestCommonDenominator(numerator, denominator)` recurses as
`denominator ? gcd(denominator, numerator % denominator) : numerator`;
`fractReduce` divides both components by it.  The claim is restricted to
positive integers, so the embedding uses `Nat`. -/

def greatestCommonDenominator (numerator denominator : Nat) : Nat :=
  if denominator ≠ 0 then
    greatestCommonDenominator denominator (numerator % denominator)
  else
    numerator
termination_by denominator
decreasing_by exact Nat.mod_lt _ (Nat.pos_of_ne_zero (by assumption))

def fractReduce (numerator denominator : Nat) : List Nat :=
  let fracGcd := greatestCommonDenominator numerator denominator
  [numerator / fracGcd, denominator / fracGcd]

theorem greatestCommonDenominator_eq_gcd (a b : Nat) :
    greatestCommonDenominator a b = Nat.gcd a b := by
  induction b using Nat.strong_induction_on generalizing a with
  | _ b ih =>
    rw [greatestCommonDenominator]
    by_cases hb : b = 0
    · simp [hb]
    · simp only [hb, ne_eq, not_false_iff, if_true]
      rw [ih (a % b) (Nat.mod_lt _ (Nat.pos_of_ne_zero hb))]
      rw [Nat.gcd_comm b (a % b), ← Nat.gcd_rec b a, Nat.gcd_comm b a]

/-- C1: Step derivation is a total, deterministic function of Identity
(it is a Lean function on `Identity`, consulting no loaded lists): for
every Identity, `computeStep` yields exactly one of the four steps —
not authenticated ⇒ Login; authenticated with no (falsy) organization ⇒
ChooseOrg; organization set but no project ⇒ ChooseRepo; otherwise
ChooseWorkspace. -/
theorem computeStep_total_cases (id : Identity) :
    (computeStep id = .Login ∨ computeStep id = .ChooseOrg ∨
      computeStep id = .ChooseRepo ∨ computeStep id = .ChooseWorkspace)
    ∧ (id.authenticated = false → computeStep id = .Login)
    ∧ (id.authenticated = true → truthyStr id.organization = false →
        computeStep id = .ChooseOrg)
    ∧ (id.authenticated = true → truthyStr id.organization = true →
        truthyStr id.project = false → computeStep id = .ChooseRepo)
    ∧ (id.authenticated = true → truthyStr id.organization = true →
        truthyStr id.project = true → computeStep id = .ChooseWorkspace) := by
  rcases id with ⟨auth, org, proj⟩
  cases auth <;> cases h1 : truthyStr org <;> cases h2 : truthyStr proj <;>
    simp [computeStep, h1, h2]

/-- Witness for C1: the four step cases at concrete identities. -/
theorem computeStep_total_cases_witness :
    computeStep ⟨false, none, none⟩ = .Login ∧
    computeStep ⟨true, none, none⟩ = .ChooseOrg ∧
    computeStep ⟨true, some "acme", none⟩ = .ChooseRepo ∧
    computeStep ⟨true, some "acme", some "site"⟩ = .ChooseWorkspace :=
  ⟨(computeStep_total_cases _).2.1 rfl,
   (computeStep_total_cases _).2.2.1 rfl rfl,
   (computeStep_total_cases _).2.2.2.1 rfl (by decide) (by decide),
   (computeStep_total_cases _).2.2.2.2 rfl (by decide) (by decide)⟩

/-- C6: `fractReduce` returns the fraction in lowest terms (gcd of the
two components is 1) with the same ratio; `fractReduce 16 9 = [16, 9]`,
`fractReduce 1920 1080 = [16, 9]`; the gcd is the recursive Euclidean
algorithm with `gcd(a, 0) = a` (a total, hence terminating, Lean
function). -/
theorem fractReduce_spec (a b : Nat) (ha : 0 < a) (hb : 0 < b) :
    fractReduce a b = [a / Nat.gcd a b, b / Nat.gcd a b] ∧
    Nat.gcd (a / Nat.gcd a b) (b / Nat.gcd a b) = 1 ∧
    ((a / Nat.gcd a b : Nat) : ℚ) / ((b / Nat.gcd a b : Nat) : ℚ)
      = (a : ℚ) / (b : ℚ) ∧
    (∀ n : Nat, greatestCommonDenominator n 0 = n) ∧
    fractReduce 16 9 = [16, 9] ∧ fractReduce 1920 1080 = [16, 9] := by
  have hg : 0 < Nat.gcd a b := Nat.gcd_pos_of_pos_left b ha
  have hgq : ((Nat.gcd a b : Nat) : ℚ) ≠ 0 := by
    exact_mod_cast Nat.pos_iff_ne_zero.mp hg
  have hbq : ((b : Nat) : ℚ) ≠ 0 := by
    exact_mod_cast Nat.pos_iff_ne_zero.mp hb
  refine ⟨by simp [fractReduce, greatestCommonDenominator_eq_gcd],
    Nat.coprime_div_gcd_div_gcd hg, ?_,
    fun n => by rw [greatestCommonDenominator]; simp, ?_, ?_⟩
  · rw [Nat.cast_div (Nat.gcd_dvd_left a b) hgq,
      Nat.cast_div (Nat.gcd_dvd_right a b) hgq]
    field_simp
  · simp [fractReduce, greatestCommonDenominator_eq_gcd]
  · simp [fractReduce, greatestCommonDenominator_eq_gcd]

/-- Witness for C6: the reduction at the concrete input (1920, 1080). -/
theorem fractReduce_spec_witness :
    fractReduce 1920 1080 = [1920 / Nat.gcd 1920 1080, 1080 / Nat.gcd 1920 1080] ∧
    Nat.gcd (1920 / Nat.gcd 1920 1080) (1080 / Nat.gcd 1920 1080) = 1 :=
  ⟨(fractReduce_spec 1920 1080 (by decide) (by decide)).1,
   (fractReduce_spec 1920 1080 (by decide) (by decide)).2.1⟩

/-! ## `ServerApi.resolveUrl` (unnamed/part_000 lines 212-216)

`path.replace(/\/*/, '')`: the non-global regex has exactly one match,
located at the start of the string (the empty match succeeds at index 0),
consuming the maximal — possibly empty — run of `/` characters there;
replacing it with the empty string strips the leading slash run and
nothing else.  `get baseUrl()` returns `'/'`. -/

def baseUrl : String := "/"

def replaceLeadingSlashRun (path : String) : String :=
  ⟨path.data.dropWhile (· == '/')⟩

def resolveUrl (path : String) : String :=
  baseUrl ++ replaceLeadingSlashRun path

/-- C9: for every path, `resolveUrl` returns `baseUrl` concatenated with
the path stripped of exactly its leading run of `/` characters; slashes
appearing later in the path are preserved (the remainder is appended
verbatim). -/
theorem resolveUrl_strips_leading_slashes (p : List Char) (n : Nat)
    (rest : List Char) (hp : p = List.replicate n '/' ++ rest)
    (hrest : rest.head? ≠ some '/') :
    resolveUrl ⟨p⟩ = baseUrl ++ ⟨rest⟩ := by
  subst hp
  unfold resolveUrl replaceLeadingSlashRun
  congr 1
  induction n with
  | zero =>
    cases rest with
    | nil => rfl
    | cons c t =>
      have hc : ¬(c = '/') := fun h => hrest (by simp [h])
      rw [List.replicate_zero, List.nil_append, List.dropWhile_cons]
      simp [hc]
  | succ m ih =>
    rw [List.replicate_succ, List.cons_append, List.dropWhile_cons]
    simpa using ih

/-- Witness for C9: `resolveUrl "//a/b" = "/" ++ "a/b"`. -/
theorem resolveUrl_strips_leading_slashes_witness :
    resolveUrl "//a/b" = baseUrl ++ "a/b" :=
  resolveUrl_strips_leading_slashes "//a/b".data 2 "a/b".data
    (by decide) (by decide)

/-! ## List filtering (templateRepositories, github.ts lines 434-446)

`if (this.repositories && this.listFilter && this.listFilter.trim() !== '')`
then `filtered = this.repositories.filter(repo => repo.repo.includes(this.listFilter || ''))`,
otherwise `filtered = this.repositories`.

JS `String.prototype.trim` removes the whitespace at both ends. -/

def jsTrim (s : String) : String :=
  ⟨((s.data.dropWhile Char.isWhitespace).reverse.dropWhile
      Char.isWhitespace).reverse⟩

structure GitHubOrgInstallationInfo where
  org : String
  repo : String
  updatedAt : Option Nat
  deriving Repr, DecidableEq

def filterRepositories (listFilter : Option String)
    (repositories : List GitHubOrgInstallationInfo) :
    List GitHubOrgInstallationInfo :=
  if truthyStr listFilter && !(jsTrim (listFilter.getD "") == "") then
    repositories.filter fun repo => jsIncludes repo.repo (listFilter.getD "")
  else
    repositories

/-- Counterexample to C7: the filter string `" "` (one space) is nonempty
but trims to empty, so the guard skips filtering and the original list is
returned — not the subsequence of items whose name contains `" "`, which
here is empty because `"ab"` has no space. -/
theorem filterRepositories_whitespace_counterexample :
    filterRepositories (some " ") [⟨"o", "ab", none⟩] = [⟨"o", "ab", none⟩] ∧
    List.filter (fun r : GitHubOrgInstallationInfo => jsIncludes r.repo " ")
      [⟨"o", "ab", none⟩] = [] ∧
    filterRepositories (some " ") [⟨"o", "ab", none⟩] ≠
      List.filter (fun r : GitHubOrgInstallationInfo => jsIncludes r.repo " ")
        [⟨"o", "ab", none⟩] := by
  refine ⟨by decide, by decide, by decide⟩

/-- C7 (amended): filtering with `undefined`, the empty string, or any
string that trims to empty returns the original list unchanged; filtering
with a string whose trim is nonempty returns exactly the items whose
display name contains the (untrimmed) string; the result is always a
sublist of the input (order preserved, no duplication); and filtering is
idempotent. -/
theorem filterRepositories_spec :
    (∀ l, filterRepositories none l = l) ∧
    (∀ f l, jsTrim f = "" → filterRepositories (some f) l = l) ∧
    (∀ f l, f ≠ "" → jsTrim f ≠ "" →
      filterRepositories (some f) l =
        l.filter fun r => jsIncludes r.repo f) ∧
    (∀ fOpt l, (filterRepositories fOpt l).Sublist l) ∧
    (∀ fOpt l, filterRepositories fOpt (filterRepositories fOpt l) =
      filterRepositories fOpt l) := by
  refine ⟨fun l => rfl, ?_, ?_, ?_, ?_⟩
  · intro f l hf
    simp [filterRepositories, hf]
  · intro f l hf htrim
    have h1 : truthyStr (some f) = true := by
      simp [truthyStr]; exact hf
    simp [filterRepositories, h1, htrim]
  · intro fOpt l
    unfold filterRepositories
    split
    · exact List.filter_sublist l
    · exact List.Sublist.refl l
  · intro fOpt l
    unfold filterRepositories
    split
    · rw [List.filter_filter]
      simp
    · rfl

/-- Witness for C7 (amended): concrete instances of the trim-empty and
filtering branches. -/
theorem filterRepositories_spec_witness :
    filterRepositories (some " ") [⟨"o", "ab", none⟩] = [⟨"o", "ab", none⟩] ∧
    filterRepositories (some "a")
        [(⟨"o", "ab", none⟩ : GitHubOrgInstallationInfo), ⟨"o", "xy", none⟩] =
      List.filter (fun r => jsIncludes r.repo "a")
        [(⟨"o", "ab", none⟩ : GitHubOrgInstallationInfo), ⟨"o", "xy", none⟩] :=
  ⟨filterRepositories_spec.2.1 " " _ (by decide),
   filterRepositories_spec.2.2.1 "a" _ (by decide) (by decide)⟩

/-! ## DeepClean (`src/utility/deepClean.ts`)

JSON-like values: `obj` is a plain record (`DataType.isObject`), `arr`
an array, `prim` any other value.  `cleanRecord` rebuilds a record's
entries in order, recursively cleaning record-valued entries and — when
`removeEmptyObjects` is set — skipping those that clean to the empty
record; non-record values (including arrays) are copied untouched.
`cleanArray` does the same over array elements.  `clean` dispatches on
the value's type. -/

inductive JValue where
  | prim : String → JValue
  | arr : List JValue → JValue
  | obj : List (String × JValue) → JValue

mutual

/-- The entry loop of `DeepClean.cleanRecord` (deepClean.ts lines 46-67):
`cleanRecord originalValue = obj (cleanEntries cfg entries)`. -/
def cleanEntries (removeEmptyObjects : Bool) :
    List (String × JValue) → List (String × JValue)
  | [] => []
  | (key, .obj fields) :: rest =>
    let value := cleanEntries removeEmptyObjects fields
    if removeEmptyObjects && value.isEmpty then
      cleanEntries removeEmptyObjects rest
    else
      (key, .obj value) :: cleanEntries removeEmptyObjects rest
  | (key, value) :: rest => (key, value) :: cleanEntries removeEmptyObjects rest

/-- The element loop of `DeepClean.cleanArray` (deepClean.ts lines
26-44): `cleanArray originalValue = arr (cleanItems cfg elements)`. -/
def cleanItems (removeEmptyObjects : Bool) : List JValue → List JValue
  | [] => []
  | .obj fields :: rest =>
    let value := cleanEntries removeEmptyObjects fields
    if removeEmptyObjects && value.isEmpty then
      cleanItems removeEmptyObjects rest
    else
      .obj value :: cleanItems removeEmptyObjects rest
  | value :: rest => value :: cleanItems removeEmptyObjects rest

end

/-- `DeepClean.clean` (deepClean.ts lines 16-24). -/
def clean (removeEmptyObjects : Bool) (value : JValue) : JValue :=
  match value with
  | .obj fields => .obj (cleanEntries removeEmptyObjects fields)
  | .arr items => .arr (cleanItems removeEmptyObjects items)
  | v => v

theorem cleanEntries_idem (cfg : Bool) (l : List (String × JValue)) :
    cleanEntries cfg (cleanEntries cfg l) = cleanEntries cfg l := by
  induction l using cleanEntries.induct cfg with
  | case1 => rw [cleanEntries.eq_1, cleanEntries.eq_1]
  | case2 key fields rest hval hcond ihf ihr =>
    rw [cleanEntries.eq_2, if_pos hcond, ihr]
  | case3 key fields rest hval hcond ihf ihr =>
    rw [cleanEntries.eq_2, if_neg hcond, cleanEntries.eq_2, ihf, ihr,
      if_neg hcond]
  | case4 key value rest hno ihr =>
    rw [cleanEntries.eq_3 cfg key value rest hno,
      cleanEntries.eq_3 cfg key value _ hno, ihr]

theorem cleanItems_idem (cfg : Bool) (l : List JValue) :
    cleanItems cfg (cleanItems cfg l) = cleanItems cfg l := by
  induction l using cleanItems.induct cfg with
  | case1 => rw [cleanItems.eq_1, cleanItems.eq_1]
  | case2 fields rest hval hcond ihr =>
    rw [cleanItems.eq_2, if_pos hcond, ihr]
  | case3 fields rest hval hcond ihr =>
    have hcond2 :
        ¬(cfg && (cleanEntries cfg (cleanEntries cfg fields)).isEmpty) = true := by
      rw [cleanEntries_idem]; exact hcond
    rw [cleanItems.eq_2, if_neg hcond, cleanItems.eq_2, if_neg hcond2,
      cleanEntries_idem, ihr]
  | case4 value rest hno ihr =>
    rw [cleanItems.eq_3 cfg value rest hno,
      cleanItems.eq_3 cfg value _ hno, ihr]

theorem cleanEntries_false_id (l : List (String × JValue)) :
    cleanEntries false l = l := by
  induction l using cleanEntries.induct false with
  | case1 => rw [cleanEntries.eq_1]
  | case2 key fields rest hval hcond ihf ihr =>
    simp at hcond
  | case3 key fields rest hval hcond ihf ihr =>
    rw [cleanEntries.eq_2, if_neg hcond, ihf, ihr]
  | case4 key value rest hno ihr =>
    rw [cleanEntries.eq_3 false key value rest hno, ihr]

theorem cleanItems_false_id (l : List JValue) : cleanItems false l = l := by
  induction l using cleanItems.induct false with
  | case1 => rw [cleanItems.eq_1]
  | case2 fields rest hval hcond ihr => simp at hcond
  | case3 fields rest hval hcond ihr =>
    rw [cleanItems.eq_2, if_neg hcond, cleanEntries_false_id, ihr]
  | case4 value rest hno ihr =>
    rw [cleanItems.eq_3 false value rest hno, ihr]

/-- C10: `DeepClean.clean` is idempotent for every configuration and
every value, and with `removeEmptyObjects` unset it is the structural
identity. -/
theorem clean_idempotent (cfg : Bool) (v : JValue) :
    clean cfg (clean cfg v) = clean cfg v ∧ clean false v = v := by
  constructor
  · cases v with
    | prim s => rfl
    | arr items => simp [clean, cleanItems_idem]
    | obj fields => simp [clean, cleanEntries_idem]
  · cases v with
    | prim s => rfl
    | arr items => simp [clean, cleanItems_false_id]
    | obj fields => simp [clean, cleanEntries_false_id]

/-! ## History navigation and popstate (github.ts lines 109-117)

A browser history entry's state object: `null` (entries created outside
the part, e.g. plain or hash navigation) or a record that carries the
`onboarding` flag and the optional selection fields. -/

structure NavigationEntry where
  onboarding : Bool
  organization : Option String
  repository : Option String
  branch : Option String
  deriving Repr, DecidableEq

/-- The current identity held by the api object (`api.organization`,
`api.project`, `api.branch`). -/
structure ApiIdentity where
  organization : Option String
  project : Option String
  branch : Option String
  deriving Repr, DecidableEq

/-- JS `x || undefined`: a falsy value (absent or empty string) becomes
`undefined`. -/
def orFalsy (o : Option String) : Option String :=
  if truthyStr o then o else none

/-- `handlePopstate` (github.ts lines 109-117).  The handler reads
`evt.state.onboarding` unconditionally; when `evt.state` is `null` this
dereference throws a `TypeError`, modelled as `Except.error`.  When the
entry carries `onboarding: true` the identity fields are overwritten from
the entry (`evt.state.organization || undefined`, …); otherwise the event
is ignored. -/
def handlePopstate (evtState : Option NavigationEntry) (api : ApiIdentity) :
    Except String ApiIdentity :=
  match evtState with
  | none => .error "TypeError: null is not an object"
  | some st =>
    if st.onboarding then
      .ok { organization := orFalsy st.organization,
            project := orFalsy st.repository,
            branch := orFalsy st.branch }
    else
      .ok api

/-- Counterexample to C4: a popstate event whose history state is `null`
makes `handlePopstate` throw (the unconditional `evt.state.onboarding`
dereference), so it does not complete without raising. -/
theorem handlePopstate_null_counterexample :
    (handlePopstate none ⟨none, none, none⟩).isOk = false := by decide

/-- C4 (amended): for every popstate event whose history state is a
non-null object, `handlePopstate` completes without raising; an entry
lacking the onboarding flag leaves the identity untouched.  (A null
history state, by contrast, throws inside the handler.) -/
theorem handlePopstate_nonnull_no_throw (st : NavigationEntry)
    (api : ApiIdentity) :
    (handlePopstate (some st) api).isOk = true ∧
    (st.onboarding = false → handlePopstate (some st) api = .ok api) := by
  cases h : st.onboarding <;> simp [handlePopstate, h, Except.isOk, Except.toBool]

/-- Witness for C4 (amended): a concrete non-onboarding entry is ignored
without raising. -/
theorem handlePopstate_nonnull_no_throw_witness :
    (handlePopstate (some ⟨false, none, none, none⟩) ⟨some "acme", none, none⟩).isOk
      = true ∧
    handlePopstate (some ⟨false, none, none, none⟩) ⟨some "acme", none, none⟩
      = .ok ⟨some "acme", none, none⟩ :=
  ⟨(handlePopstate_nonnull_no_throw _ _).1,
   (handlePopstate_nonnull_no_throw _ _).2 rfl⟩

/-! ## Selection click handlers (github.ts lines 304-320, 477-493,
601-625)

State touched by the three handlers, and the externally visible effects
of one click: the pushed history entries, whether `this.render()` was
called, and whether `EVENT_ONBOARDING_UPDATE` was dispatched. -/

structure GitHubInstallationInfo where
  id : Nat
  org : String
  url : String
  deriving Repr, DecidableEq

structure WorkspaceData where
  name : String
  deriving Repr, DecidableEq

structure OnboardingState where
  organization : Option String
  project : Option String
  branch : Option String
  installation : Option GitHubInstallationInfo
  listFilter : Option String
  deriving Repr, DecidableEq

structure ClickEffects where
  state : OnboardingState
  pushedEntries : List NavigationEntry
  rendered : Bool
  onboardingUpdateDispatched : Bool
  deriving Repr, DecidableEq

/-- The organization click handler (github.ts lines 304-320): sets
`api.organization` and `installation`, clears `listFilter`, pushes
`{onboarding: true, organization}`, and calls `this.render()`. -/
def clickOrganization (org : GitHubInstallationInfo) (s : OnboardingState) :
    ClickEffects :=
  { state := { s with
      organization := some org.org
      installation := some org
      listFilter := none },
    pushedEntries := [⟨true, some org.org, none, none⟩],
    rendered := true,
    onboardingUpdateDispatched := false }

/-- The repository click handler (github.ts lines 477-493): sets
`api.project`, clears `listFilter`, pushes
`{onboarding: true, organization, repository}`, and calls `this.render()`. -/
def clickRepository (repo : GitHubOrgInstallationInfo) (s : OnboardingState) :
    ClickEffects :=
  { state := { s with project := some repo.repo, listFilter := none },
    pushedEntries := [⟨true, s.organization, some repo.repo, none⟩],
    rendered := true,
    onboardingUpdateDispatched := false }

/-- The workspace click handler (github.ts lines 601-625): sets
`api.branch` and pushes `{onboarding: true, organization, repository,
branch}`, then dispatches `EVENT_ONBOARDING_UPDATE`.  It does not touch
`listFilter` and does not call `this.render()`. -/
def clickWorkspace (workspace : WorkspaceData) (s : OnboardingState) :
    ClickEffects :=
  { state := { s with branch := some workspace.name },
    pushedEntries := [⟨true, s.organization, s.project, some workspace.name⟩],
    rendered := false,
    onboardingUpdateDispatched := true }

/-- Counterexample to C5: selecting a workspace while a text filter is
active neither clears the filter nor re-renders, contradicting "for every
selection of an item at any onboarding step … clears any active text
filter … and re-renders". -/
theorem clickWorkspace_counterexample :
    ¬((clickWorkspace ⟨"main"⟩
        ⟨some "acme", some "site", none, none, some "ma"⟩).state.listFilter
          = none ∧
      (clickWorkspace ⟨"main"⟩
        ⟨some "acme", some "site", none, none, some "ma"⟩).rendered = true) := by
  decide

/-- C5 (amended): selecting an organization or a repository mutates the
corresponding Identity field, clears any active text filter, pushes a
NavigationEntry reflecting the new Identity, and re-renders; selecting a
workspace mutates `branch` and pushes the corresponding NavigationEntry
but, instead of clearing the filter and re-rendering, dispatches the
onboarding-update signal to the surrounding application. -/
theorem click_handlers_spec :
    (∀ (org : GitHubInstallationInfo) (s : OnboardingState),
      (clickOrganization org s).state.organization = some org.org ∧
      (clickOrganization org s).state.listFilter = none ∧
      (clickOrganization org s).pushedEntries =
        [⟨true, some org.org, none, none⟩] ∧
      (clickOrganization org s).rendered = true) ∧
    (∀ (repo : GitHubOrgInstallationInfo) (s : OnboardingState),
      (clickRepository repo s).state.project = some repo.repo ∧
      (clickRepository repo s).state.listFilter = none ∧
      (clickRepository repo s).pushedEntries =
        [⟨true, s.organization, some repo.repo, none⟩] ∧
      (clickRepository repo s).rendered = true) ∧
    (∀ (workspace : WorkspaceData) (s : OnboardingState),
      (clickWorkspace workspace s).state.branch = some workspace.name ∧
      (clickWorkspace workspace s).pushedEntries =
        [⟨true, s.organization, s.project, some workspace.name⟩] ∧
      (clickWorkspace workspace s).onboardingUpdateDispatched = true ∧
      (clickWorkspace workspace s).rendered = false ∧
      (clickWorkspace workspace s).state.listFilter = s.listFilter) :=
  ⟨fun _ _ => ⟨rfl, rfl, rfl, rfl⟩,
   fun _ _ => ⟨rfl, rfl, rfl, rfl⟩,
   fun _ _ => ⟨rfl, rfl, rfl, rfl, rfl⟩⟩

/-! ## Organizations fetch lifecycle (github.ts lines 132-142, 254-257)

`templateOrganizations` begins with
`if (!this.organizations) { this.loadOrganizations(); }`, and
`loadOrganizations` unconditionally calls `this.api.getOrganizations()`
— there is no in-flight flag or memoized promise.  The state tracks the
stored list and how many `getOrganizations` fetches are outstanding. -/

structure OrgLoadState where
  organizations : Option (List GitHubInstallationInfo)
  orgFetchesInFlight : Nat
  deriving Repr, DecidableEq

/-- `loadOrganizations` (github.ts lines 132-142): issues one
`api.getOrganizations()` fetch, unconditionally. -/
def loadOrganizations (s : OrgLoadState) : OrgLoadState :=
  { s with orgFetchesInFlight := s.orgFetchesInFlight + 1 }

/-- The data-loading prologue of `templateOrganizations` (lines 254-257),
run on every render request at the ChooseOrg step. -/
def renderOrganizationsStep (s : OrgLoadState) : OrgLoadState :=
  if s.organizations.isNone then loadOrganizations s else s

/-- The `then` handler of `loadOrganizations` (lines 135-138): one fetch
resolves; the list is stored (and a re-render is requested). -/
def resolveOrganizations (result : List GitHubInstallationInfo)
    (s : OrgLoadState) : OrgLoadState :=
  { organizations := some result,
    orgFetchesInFlight := s.orgFetchesInFlight - 1 }

/-- Counterexample to C2: starting with no organizations loaded and no
fetch outstanding, two render requests under an unchanged Identity put
two `getOrganizations` fetches in flight — the second request is not a
no-op and "at most one fetch per step in flight" fails. -/
theorem renderOrganizations_duplicate_fetch_counterexample :
    (renderOrganizationsStep (renderOrganizationsStep
        ⟨none, 0⟩)).orgFetchesInFlight = 2 ∧
    ¬((renderOrganizationsStep (renderOrganizationsStep
        ⟨none, 0⟩)).orgFetchesInFlight ≤ 1) := by
  decide

/-- C2 (amended): every render request issued while the organizations
list is absent issues one more fetch — fetches are not deduplicated, so a
second request while one is pending adds a second in-flight fetch; once a
fetch resolves and the list is stored, render requests issue no fetch. -/
theorem renderOrganizations_fetch_behavior :
    (∀ s : OrgLoadState, s.organizations = none →
      renderOrganizationsStep s =
        { s with orgFetchesInFlight := s.orgFetchesInFlight + 1 }) ∧
    (∀ s : OrgLoadState, s.organizations.isSome →
      renderOrganizationsStep s = s) ∧
    (∀ (result : List GitHubInstallationInfo) (s : OrgLoadState),
      renderOrganizationsStep (resolveOrganizations result s) =
        resolveOrganizations result s) := by
  refine ⟨?_, ?_, ?_⟩
  · intro s h
    simp [renderOrganizationsStep, loadOrganizations, h]
  · intro s h
    simp [renderOrganizationsStep, Option.isNone_iff_eq_none,
      Option.ne_none_iff_isSome.mpr h]
  · intro result s
    simp [renderOrganizationsStep, resolveOrganizations]

/-- Witness for C2 (amended): concrete instances of the fetch-on-absent
and no-fetch-after-store behaviors. -/
theorem renderOrganizations_fetch_behavior_witness :
    renderOrganizationsStep ⟨none, 1⟩ = ⟨none, 2⟩ ∧
    renderOrganizationsStep ⟨some [], 0⟩ = ⟨some [], 0⟩ :=
  ⟨renderOrganizations_fetch_behavior.1 ⟨none, 1⟩ rfl,
   renderOrganizations_fetch_behavior.2.1 ⟨some [], 0⟩ rfl⟩

/-! ## Render coalescing (`src/editor/editor.ts` lines 76-92)

`LiveEditor.render` guards on `isRendering`: a request while a render is
in progress only sets `isPendingRender` and returns.  An actual render
clears `isPendingRender`, sets `isRendering`, runs the template render,
clears `isRendering`, and — if requests arrived meanwhile — runs exactly
one follow-up render.

The environment is made explicit as `arrivals`: for the current render
call and each chained follow-up, how many render requests arrive while
the corresponding `render(this.template(this), this.container)` call is
on the stack.  Each such request reentrantly enters `render()`, hits the
`isRendering` guard and only sets the (single, boolean) pending flag, so
after the template render the flag is `true` iff at least one request
arrived. -/

structure RenderState where
  isRendering : Bool
  isPendingRender : Bool
  renders : Nat
  deriving Repr, DecidableEq

def render : List Nat → RenderState → RenderState
  | arrivals, s =>
    if s.isRendering then
      { s with isPendingRender := true }
    else
      match arrivals with
      | [] =>
        { isRendering := false, isPendingRender := false,
          renders := s.renders + 1 }
      | k :: rest =>
        let s' : RenderState :=
          { isRendering := false, isPendingRender := decide (0 < k),
            renders := s.renders + 1 }
        if 0 < k then render rest s' else s'

/-- C8: a render request arriving while a render is in progress is
deferred (it performs no render, only sets the pending flag — the flag
being a single boolean, at most one deferred render is ever pending);
when `k ≥ 1` requests arrive during a render, exactly one additional
render runs immediately after it completes (here: none arrive during the
follow-up, so exactly two renders run in total), and the outcome for `k`
deferred requests is identical to that for a single one (no unbounded
queueing). -/
theorem render_coalescing (s : RenderState) (hs : s.isRendering = false)
    (k : Nat) (hk : 0 < k) :
    (∀ (t : RenderState) (arrivals : List Nat), t.isRendering = true →
      render arrivals t = { t with isPendingRender := true }) ∧
    (render [k] s).renders = s.renders + 2 ∧
    render [k] s = render [1] s := by
  have hguard : ∀ (t : RenderState) (arrivals : List Nat),
      t.isRendering = true →
      render arrivals t = { t with isPendingRender := true } := by
    intro t arrivals ht
    rw [render.eq_def]
    simp [ht]
  have hstep : ∀ m : Nat, 0 < m →
      render [m] s = render [] ⟨false, true, s.renders + 1⟩ := by
    intro m hm
    rw [render.eq_def]
    simp [hs, hm]
  have hdone : render [] (⟨false, true, s.renders + 1⟩ : RenderState) =
      ⟨false, false, s.renders + 2⟩ := by
    rw [render.eq_def]
    simp
  refine ⟨hguard, ?_, ?_⟩
  · rw [hstep k hk, hdone]
  · rw [hstep k hk, hstep 1 (by decide)]

/-- Witness for C8: from an idle editor, a render during which three
requests arrive runs exactly two renders, the same outcome as for one
arriving request. -/
theorem render_coalescing_witness :
    (render [3] ⟨false, false, 0⟩).renders = 2 ∧
    render [3] ⟨false, false, 0⟩ = render [1] ⟨false, false, 0⟩ :=
  ⟨(render_coalescing ⟨false, false, 0⟩ rfl 3 (by decide)).2.1,
   (render_coalescing ⟨false, false, 0⟩ rfl 3 (by decide)).2.2⟩

/-! ## Repository list loading and stale-tag invalidation
(github.ts lines 144-182, 420-432)

The part's state for the repositories flow.  `pendingRepoFetches` lists
the outstanding `api.getRepositories(id)` calls by the installation id
passed as the argument at call time (github.ts line 173); the server is
modelled as a function from installation id to the repository list it
returns, so the list a resolution delivers is the one fetched for that
id. -/

structure RepoFlowState where
  organization : Option String
  project : Option String
  branch : Option String
  installation : Option GitHubInstallationInfo
  organizations : Option (List GitHubInstallationInfo)
  repositories : Option (List GitHubOrgInstallationInfo)
  repositoriesId : Option Nat
  pendingRepoFetches : List Nat
  listFilter : Option String
  deriving Repr, DecidableEq

/-- JS truthiness of `this.repositoriesId` (a number or undefined):
`undefined` and `0` are falsy. -/
def truthyNat : Option Nat → Bool
  | none => false
  | some n => !(n == 0)

/-- The identity part of the organization click handler (lines 304-307):
`this.api.organization = org.org; this.installation = org;`. -/
def orgClickFlow (org : GitHubInstallationInfo) (s : RepoFlowState) :
    RepoFlowState :=
  { s with organization := some org.org, installation := some org,
           listFilter := none }

/-- `handlePopstate` (lines 109-117) on the flow state: for an entry with
`onboarding: true`, overwrite organization/project/branch from the entry;
`installation`, the loaded lists and their tags are left untouched. -/
def popstateFlow (entry : NavigationEntry) (s : RepoFlowState) :
    RepoFlowState :=
  if entry.onboarding then
    { s with
      organization := orFalsy entry.organization
      project := orFalsy entry.repository
      branch := orFalsy entry.branch }
  else s

/-- `loadRepositories` (github.ts lines 144-182).  (Its first statement,
`if (!this.organizations) this.loadOrganizations();`, issues an
organizations fetch — modelled separately by `OrgLoadState` — and leaves
every repository field unchanged.)  When `installation` is unset, it is
looked up in the loaded organizations by org name; a failed lookup
stores an empty repository list ("no installation found") and returns.
With an installation at hand, `api.getRepositories(this.installation.id)`
is issued. -/
def loadRepositories (s : RepoFlowState) : RepoFlowState :=
  if s.installation.isNone && truthyStr s.organization
      && s.organizations.isSome then
    match (s.organizations.getD []).find?
        (fun o => o.org == s.organization.getD "") with
    | some o =>
      { s with installation := some o,
               pendingRepoFetches := s.pendingRepoFetches ++ [o.id] }
    | none => { s with repositories := some [] }
  else
    match s.installation with
    | some inst =>
      { s with pendingRepoFetches := s.pendingRepoFetches ++ [inst.id] }
    | none => s

/-- The `then` handler of `getRepositories` (github.ts lines 174-178):
the fetch issued with argument `id` resolves with the server's list for
`id`; the handler stores that list and tags it with the CURRENT
`this.installation?.id` (line 176) — not with `id`, the value actually
used for the fetch. -/
def resolveRepositories (reposFor : Nat → List GitHubOrgInstallationInfo)
    (id : Nat) (s : RepoFlowState) : RepoFlowState :=
  { s with repositories := some (reposFor id),
           repositoriesId := s.installation.map (fun i => i.id),
           pendingRepoFetches := s.pendingRepoFetches.erase id }

/-- The prologue of `templateRepositories` (github.ts lines 420-432) run
on each render of the ChooseRepo step: discard the loaded list when
`this.repositories && this.repositoriesId &&
this.installation?.id !== this.repositoriesId`, then load when absent.
Returns the post-prologue state and the list this render displays
(`filtered || []`, with no filter active). -/
def renderRepositoriesStep (s : RepoFlowState) :
    RepoFlowState × List GitHubOrgInstallationInfo :=
  let s1 :=
    if s.repositories.isSome && truthyNat s.repositoriesId
        && !(s.installation.map (fun i => i.id) == s.repositoriesId) then
      { s with repositories := none }
    else s
  let s2 := if s1.repositories.isNone then loadRepositories s1 else s1
  (s2, s2.repositories.getD [])

def orgAcme : GitHubInstallationInfo := ⟨1, "acme", "https://a"⟩

def orgGlobex : GitHubInstallationInfo := ⟨2, "globex", "https://b"⟩

def reposServer : Nat → List GitHubOrgInstallationInfo := fun id =>
  if id == 1 then [⟨"acme", "site", none⟩]
  else if id == 2 then [⟨"globex", "app", none⟩]
  else []

def flowStart : RepoFlowState :=
  ⟨none, none, none, none, none, none, none, [], none⟩

/-- C3 fails on the code: evaluation at the failing trace.  The user
clicks "acme" (fetch for installation 1 goes out), navigates back to the
organizations step, clicks "globex" (fetch for installation 2 goes out);
then the acme response arrives.  Its handler tags acme's repository list
with the CURRENT installation id 2, so the next render's mismatch check
(tag 2 vs active installation 2) passes and the acme list — fetched for
installation 1 — is displayed while the active organization is globex:
a list rendered against an organization it was not fetched for, with no
discard or refetch. -/
theorem staleRepositories_rendered_for_wrong_org :
    (let s1 := orgClickFlow orgAcme flowStart
     let s2 := (renderRepositoriesStep s1).1
     let s3 := popstateFlow ⟨true, none, none, none⟩ s2
     let s4 := orgClickFlow orgGlobex s3
     let s5 := (renderRepositoriesStep s4).1
     let s6 := resolveRepositories reposServer 1 s5
     (renderRepositoriesStep s6).2 = reposServer orgAcme.id ∧
     (renderRepositoriesStep s6).2 ≠ reposServer orgGlobex.id ∧
     ((renderRepositoriesStep s6).1).repositories = some (reposServer orgAcme.id) ∧
     s6.organization = some orgGlobex.org ∧
     s6.installation = some orgGlobex ∧
     s6.repositoriesId = some orgGlobex.id ∧
     orgAcme.id ≠ orgGlobex.id) := by
  decide

end LiveEdit
